import Mathlib

/-!
Verification of `invenio_cli/commands/services.py` (the `ServicesCommands`
orchestration façade).

The Python class is embedded shallowly:

* `ProcessResponse` mirrors the structured result type used throughout.
* `CLIConfig` holds the static configuration values the façade reads
  (`get_project_shortname`, `get_db_type`, `get_instance_path`, and the
  cookiecutter section's `author_email` / `project_site`).
* `World` is the mutable external state: the persisted services-setup flag
  (read by `get_services_setup`, written by `update_services_setup`), the
  container group, and the health of the external services.
* Each Python method becomes an explicit state-passing function
  `... → World → result × World`, translated statement by statement; methods
  whose bodies only construct step lists therefore return the input world
  unchanged.
* A step is a tagged value: `CommandStep` keeps the argument vector, the
  environment overlay and the message; `FunctionStep` keeps a reference to
  the bound callable (with its keyword arguments folded into the tag) and
  the message.  Steps are data only; nothing here executes them.
-/

structure ProcessResponse where
  output : String
  error : String
  status_code : Nat
deriving DecidableEq, Repr

structure CLIConfig where
  project_shortname : String
  db_type : String
  instance_path : String
  author_email : String
  project_site : String
deriving DecidableEq, Repr

/-- The mutable external state: the persisted setup flag, the container group,
and, for each service name, whether it reports healthy within the readiness
poller's retry budget. -/
structure World where
  services_setup : Bool
  containers_running : Bool
  healthy : String → Bool

/-- Python's `str` of a `bool`, as it appears inside f-strings. -/
def pyBool (b : Bool) : String :=
  if b then "True" else "False"

/-- The callables stored in `FunctionStep(func=..., args=...)`, with their
keyword arguments folded in. -/
inductive FuncRef where
  | services_expected_status (expected : Bool)
  | update_services_setup (is_setup : Bool)
  | ensure_containers_running
  | stop_containers
  | destroy_containers
deriving DecidableEq, Repr

/-- A step: either a `CommandStep` (argument vector, environment overlay,
message) or a `FunctionStep` (callable reference, message). -/
inductive Step where
  | CommandStep (cmd : List String) (env : List (String × String)) (message : String)
  | FunctionStep (func : FuncRef) (message : String)
deriving DecidableEq, Repr

/-- A health-check strategy: `(filepath, verbose, project_shortname)` probing
the external world and returning a `ProcessResponse`. -/
def HealthCheck : Type :=
  String → Bool → String → World → ProcessResponse

/-- `string.ascii_letters`. -/
def ascii_letters : List Char :=
  "abcdefghijklmnopqrstuvwxyzABCDEFGHIJKLMNOPQRSTUVWXYZ".toList

/-- `string.digits`. -/
def string_digits : List Char :=
  "0123456789".toList

/-- The alphabet used for the generated admin credential:
`string.ascii_letters + string.digits + "+,-_."`. -/
def alphabet : List Char :=
  ascii_letters ++ string_digits ++ "+,-_.".toList

/-- Modelled from the spec: `DockerHelper.start_containers` (module
`helpers/docker_helper.py`, not under `src/`).  Container lifecycle mechanics
are delegated to the container-runtime collaborator; starting the container
group is modelled as marking it running. -/
def start_containers (w : World) : World :=
  { w with containers_running := true }

/-- Modelled from the spec: `ServicesHealthCommands.wait_for_services` (module
`commands/services_health.py`, not under `src/`).  Per the spec, the readiness
poller probes each named service with bounded retries and, when some services
exhaust their budget, fails the wait naming the services that timed out;
`World.healthy s` abstracts "service `s` reports healthy within the retry
budget".  The outcome is the list of services that failed to become ready
(empty means the wait succeeded). -/
def wait_for_services (services : List String) (project_shortname : String)
    (w : World) : List String × World :=
  (services.filter (fun s => !(w.healthy s)), w)

/-- The façade object: the configuration it was built over and the two
attributes computed in `__init__`. -/
structure ServicesCommands where
  cli_config : CLIConfig
  admin_password : String
  admin_user : String
deriving DecidableEq, Repr

/-- `ServicesCommands.__init__`: draw 20 characters from `alphabet` via
`secrets.choice` (modelled by the `choice` argument, an arbitrary sequence of
picks into the alphabet) to form `admin_password`; set `admin_user` to the
configured `author_email`, falling back to `"admin@" + project_site` when that
is empty (falsy). -/
def ServicesCommands.init (cli_config : CLIConfig)
    (choice : Fin 20 → Fin alphabet.length) : ServicesCommands :=
  { cli_config := cli_config
    admin_password :=
      String.mk (((List.finRange 20).map (fun i => alphabet.get (choice i))))
    admin_user :=
      if cli_config.author_email == "" then
        "admin@" ++ cli_config.project_site
      else
        cli_config.author_email }

namespace ServicesCommands

/-- `ensure_containers_running`: start the containers, wait for the services
`["redis", db_type, "es"]`, and return a success response.  As in the source,
the outcome of the wait is not inspected. -/
def ensure_containers_running (self : ServicesCommands) (w : World) :
    ProcessResponse × World :=
  let project_shortname := self.cli_config.project_shortname
  let w1 := start_containers w
  let (_failed, w2) :=
    wait_for_services ["redis", self.cli_config.db_type, "es"]
      project_shortname w1
  ({ output := "Containers started and healthy.", error := "", status_code := 0 },
   w2)

/-- `services_expected_status(expected)`: compare the persisted setup flag
against `expected` and report consistency as a `ProcessResponse`. -/
def services_expected_status (_self : ServicesCommands) (expected : Bool)
    (w : World) : ProcessResponse × World :=
  if !(w.services_setup == expected) then
    ({ output := ""
       error := "Services status inconsistent." ++
         "Expected " ++ pyBool expected ++ " obtained " ++ pyBool (!expected)
       status_code := 1 }, w)
  else
    ({ output := "Services setup status consistent."
       error := ""
       status_code := 0 }, w)

/-- `_cleanup`: the services cleanup step list. -/
def _cleanup (_self : ServicesCommands) (w : World) : List Step × World :=
  ([ Step.FunctionStep (FuncRef.services_expected_status true)
       "Checking services are setup...",
     Step.CommandStep
       ["pipenv", "run", "invenio", "shell", "--no-term-title", "-c",
        "import redis; redis.StrictRedis.from_url(app.config[\x27CACHE_REDIS_URL\x27]).flushall(); print(\x27Cache cleared\x27)"]
       [("PIPENV_VERBOSITY", "-1")]
       "Flushing Redis...",
     Step.CommandStep
       ["pipenv", "run", "invenio", "db", "destroy", "--yes-i-know"]
       [("PIPENV_VERBOSITY", "-1")]
       "Destroying database...",
     Step.CommandStep
       ["pipenv", "run", "invenio", "index", "destroy", "--force",
        "--yes-i-know"]
       [("PIPENV_VERBOSITY", "-1")]
       "Destroying indices...",
     Step.CommandStep
       ["pipenv", "run", "invenio", "index", "queue", "init", "purge"]
       [("PIPENV_VERBOSITY", "-1")]
       "Purging queues...",
     Step.FunctionStep (FuncRef.update_services_setup false)
       "Updating service setup status (False)..."
   ], w)

/-- `_setup`: the services initialization step list. -/
def _setup (self : ServicesCommands) (w : World) : List Step × World :=
  ([ Step.FunctionStep (FuncRef.services_expected_status false)
       "Checking services are not setup...",
     Step.CommandStep
       ["pipenv", "run", "invenio", "db", "init", "create"]
       [("PIPENV_VERBOSITY", "-1")]
       "Creating database...",
     Step.CommandStep
       ["pipenv", "run", "invenio", "files", "location", "create",
        "--default", "default-location",
        self.cli_config.instance_path ++ "/data"]
       [("PIPENV_VERBOSITY", "-1")]
       "Creating files location...",
     Step.CommandStep
       ["pipenv", "run", "invenio", "roles", "create", "admin"]
       [("PIPENV_VERBOSITY", "-1")]
       "Creating admin role...",
     Step.CommandStep
       ["pipenv", "run", "invenio", "access", "allow", "superuser-access",
        "role", "admin"]
       [("PIPENV_VERBOSITY", "-1")]
       "Allowing superuser access to admin role...",
     Step.CommandStep
       ["pipenv", "run", "invenio", "users", "create", "--password",
        self.admin_password, self.admin_user]
       [("PIPENV_VERBOSITY", "-1")]
       ("Creating (inactive) admin user...\n" ++
        "Enable login with \x27invenio users activate " ++ self.admin_user ++
        "\x27\n" ++
        "DO NOT FORGET to update the password!\n" ++
        "Email: " ++ self.admin_user ++ ", password: " ++ self.admin_password),
     Step.CommandStep
       ["pipenv", "run", "invenio", "roles", "add", self.admin_user, "admin"]
       [("PIPENV_VERBOSITY", "-1")]
       ("Giving " ++ self.admin_user ++ " admin permissions..."),
     Step.CommandStep
       ["pipenv", "run", "invenio", "index", "init"]
       [("PIPENV_VERBOSITY", "-1")]
       "Creating indices...",
     Step.FunctionStep (FuncRef.update_services_setup true)
       "Updating service setup status (True)..."
   ], w)

/-- `demo`: the demo-records step list. -/
def demo (_self : ServicesCommands) (w : World) : List Step × World :=
  ([ Step.CommandStep
       ["pipenv", "run", "invenio", "rdm-records", "demo"]
       [("PIPENV_VERBOSITY", "-1")]
       "Creating demo records..."
   ], w)

/-- `vocabularies`: the vocabularies step list. -/
def vocabularies (_self : ServicesCommands) (w : World) : List Step × World :=
  ([ Step.CommandStep
       ["pipenv", "run", "invenio", "rdm-records", "vocabularies"]
       [("PIPENV_VERBOSITY", "-1")]
       "Creating vocabularies..."
   ], w)

/-- `setup(force, demo_data, stop, services)`: compose the full setup step
list. -/
def setup (self : ServicesCommands) (force demo_data stop services : Bool)
    (w : World) : List Step × World :=
  let steps : List Step := []
  let steps :=
    if services then
      steps ++ [Step.FunctionStep FuncRef.ensure_containers_running
        "Making sure containers are up..."]
    else steps
  let (steps, w) :=
    if force then
      let (cl, w1) := self._cleanup w
      (steps ++ cl, w1)
    else (steps, w)
  let (st, w) := self._setup w
  let steps := steps ++ st
  let (vc, w) := self.vocabularies w
  let steps := steps ++ vc
  let (steps, w) :=
    if demo_data then
      let (dm, w1) := self.demo w
      (steps ++ dm, w1)
    else (steps, w)
  let steps :=
    if stop then
      steps ++ [Step.FunctionStep FuncRef.stop_containers
        "Stopping containers...."]
    else steps
  (steps, w)

/-- `start`: a single step ensuring containers are running. -/
def start (_self : ServicesCommands) (w : World) : List Step × World :=
  ([ Step.FunctionStep FuncRef.ensure_containers_running
       "Making sure containers are up..."
   ], w)

/-- `stop`: a single step stopping the containers. -/
def stop (_self : ServicesCommands) (w : World) : List Step × World :=
  ([ Step.FunctionStep FuncRef.stop_containers
       "Stopping containers..."
   ], w)

/-- `destroy`: destroy the containers, then reset the persisted flag. -/
def destroy (_self : ServicesCommands) (w : World) : List Step × World :=
  ([ Step.FunctionStep FuncRef.destroy_containers
       "Destroying containers...",
     Step.FunctionStep (FuncRef.update_services_setup false)
       "Updating service setup status (False)..."
   ], w)

/-- `status(services, verbose)`: probe each requested service once through the
health-check registry (`HEALTHCHECKS`, passed as an argument here) and collect
status codes: `0` healthy, `1` unhealthy, `2` when no health check is
registered for the name. -/
def status (self : ServicesCommands)
    (HEALTHCHECKS : String → Option HealthCheck)
    (services : List String) (verbose : Bool) (w : World) :
    List Nat × World :=
  let project_shortname := self.cli_config.project_shortname
  (services.map (fun service =>
    match HEALTHCHECKS service with
    | some check =>
        let result := check "docker-services.yml" verbose project_shortname w
        if result.status_code = 0 then 0 else 1
    | none => 2), w)

end ServicesCommands

/-! Concrete fixtures used to instantiate the theorems below. -/

def cfgEx : CLIConfig :=
  { project_shortname := "proj"
    db_type := "postgresql"
    instance_path := "/opt/invenio/var/instance"
    author_email := ""
    project_site := "example.org" }

def choiceEx : Fin 20 → Fin alphabet.length :=
  fun _ => ⟨0, by decide⟩

def selfEx : ServicesCommands :=
  ServicesCommands.init cfgEx choiceEx

/-- A world where everything is up and the setup flag is set. -/
def wEx : World :=
  { services_setup := true, containers_running := true, healthy := fun _ => true }

/-- A world where nothing is up and the setup flag is clear. -/
def wDown : World :=
  { services_setup := false, containers_running := false, healthy := fun _ => false }

/-- A registry knowing a single always-healthy check for `"redis"`. -/
def regEx : String → Option HealthCheck :=
  fun s =>
    if s == "redis" then
      some (fun _ _ _ _ => { output := "up", error := "", status_code := 0 })
    else none

/-- C2: `services_expected_status(expected)` returns status_code 0 iff the
persisted setup flag equals `expected`; otherwise it returns status_code 1
with an error message naming both the expected and the actual value of the
flag. -/
theorem services_expected_status_spec (self : ServicesCommands)
    (expected : Bool) (w : World) :
    ((self.services_expected_status expected w).1.status_code = 0 ↔
      w.services_setup = expected) ∧
    (w.services_setup ≠ expected →
      (self.services_expected_status expected w).1.status_code = 1 ∧
      (self.services_expected_status expected w).1.error =
        "Services status inconsistent." ++ "Expected " ++ pyBool expected ++
          " obtained " ++ pyBool w.services_setup) := by
  obtain ⟨flag, cr, h⟩ := w
  cases flag <;> cases expected <;>
    simp [ServicesCommands.services_expected_status, pyBool]

theorem services_expected_status_spec_witness :
    (ServicesCommands.services_expected_status selfEx true wDown).1.status_code = 1 ∧
    (ServicesCommands.services_expected_status selfEx true wDown).1.error =
      "Services status inconsistent." ++ "Expected " ++ pyBool true ++
        " obtained " ++ pyBool wDown.services_setup :=
  (services_expected_status_spec selfEx true wDown).2 (by decide)

/-- C3: `setup(force, demo_data, stop, services)` is composed in the fixed
order: ensure-containers-running iff `services`, cleanup steps iff `force`,
always the setup steps, then the vocabulary steps, then the demo steps iff
`demo_data`, then a stop-containers step iff `stop`. -/
theorem setup_composition (self : ServicesCommands)
    (force demo_data stop services : Bool) (w : World) :
    (self.setup force demo_data stop services w).1 =
      (if services then
        [Step.FunctionStep FuncRef.ensure_containers_running
          "Making sure containers are up..."]
       else []) ++
      (if force then (self._cleanup w).1 else []) ++
      (self._setup w).1 ++
      (self.vocabularies w).1 ++
      (if demo_data then (self.demo w).1 else []) ++
      (if stop then
        [Step.FunctionStep FuncRef.stop_containers "Stopping containers...."]
       else []) := by
  cases force <;> cases demo_data <;> cases stop <;> cases services <;>
    simp [ServicesCommands.setup, ServicesCommands._cleanup,
      ServicesCommands._setup, ServicesCommands.vocabularies,
      ServicesCommands.demo]

/-- C6 (counterexample): in a world where no service becomes healthy, the
readiness wait fails (a non-empty list of timed-out services), yet
`ensure_containers_running` still returns status_code 0 — its returned
status code is not "non-zero otherwise". -/
theorem ensure_containers_running_counterexample :
    (wait_for_services ["redis", selfEx.cli_config.db_type, "es"]
        selfEx.cli_config.project_shortname (start_containers wDown)).1 ≠ [] ∧
    ((selfEx.ensure_containers_running wDown).1).status_code = 0 := by
  constructor
  · decide
  · rfl

/-- C6 (amended): `ensure_containers_running` starts the container group and
waits for readiness of `["redis", db_type, "es"]`, but returns a
`ProcessResponse` with status_code 0 unconditionally; the outcome of the
readiness wait is not propagated into the returned status code. -/
theorem ensure_containers_running_amended (self : ServicesCommands) (w : World) :
    (self.ensure_containers_running w).1 =
      { output := "Containers started and healthy.", error := ""
        status_code := 0 } ∧
    (self.ensure_containers_running w).2 =
      (wait_for_services ["redis", self.cli_config.db_type, "es"]
        self.cli_config.project_shortname (start_containers w)).2 ∧
    ((self.ensure_containers_running w).2).containers_running = true :=
  ⟨rfl, rfl, rfl⟩

/-- C7: `destroy` is exactly the two steps [destroy-containers,
reset-flag-to-false]; `start` and `stop` are single-step lists delegating to
the container lifecycle, and neither contains a flag-update step. -/
theorem start_stop_destroy_steps (self : ServicesCommands) (w : World) :
    (self.destroy w).1 =
      [Step.FunctionStep FuncRef.destroy_containers "Destroying containers...",
       Step.FunctionStep (FuncRef.update_services_setup false)
         "Updating service setup status (False)..."] ∧
    (self.start w).1 =
      [Step.FunctionStep FuncRef.ensure_containers_running
        "Making sure containers are up..."] ∧
    (self.stop w).1 =
      [Step.FunctionStep FuncRef.stop_containers "Stopping containers..."] ∧
    (∀ st ∈ (self.start w).1, ∀ b msg,
      st ≠ Step.FunctionStep (FuncRef.update_services_setup b) msg) ∧
    (∀ st ∈ (self.stop w).1, ∀ b msg,
      st ≠ Step.FunctionStep (FuncRef.update_services_setup b) msg) := by
  refine ⟨rfl, rfl, rfl, ?_, ?_⟩ <;>
  · intro st hst b msg
    simp [ServicesCommands.start, ServicesCommands.stop] at hst
    subst hst
    simp

theorem start_stop_destroy_steps_witness :
    Step.FunctionStep FuncRef.ensure_containers_running
        "Making sure containers are up..." ≠
      Step.FunctionStep (FuncRef.update_services_setup true) "x" :=
  (start_stop_destroy_steps selfEx wEx).2.2.2.1 _ (by decide) true "x"

/-- C8: `status` is idempotent with respect to observation: it leaves the
world unchanged, and a second invocation on the resulting world returns the
same output list. -/
theorem status_idempotent (self : ServicesCommands)
    (reg : String → Option HealthCheck) (services : List String)
    (verbose : Bool) (w : World) :
    (self.status reg services verbose w).2 = w ∧
    (self.status reg services verbose
        ((self.status reg services verbose w).2)).1 =
      (self.status reg services verbose w).1 :=
  ⟨rfl, rfl⟩

/-- C9: every step-list-producing lifecycle operation only constructs its
step list: it returns the world (persisted setup flag, containers, external
services) unchanged. -/
theorem lifecycle_ops_frame (self : ServicesCommands)
    (force demo_data stop services : Bool) (w : World) :
    (self.setup force demo_data stop services w).2 = w ∧
    (self._setup w).2 = w ∧
    (self._cleanup w).2 = w ∧
    (self.demo w).2 = w ∧
    (self.vocabularies w).2 = w ∧
    (self.start w).2 = w ∧
    (self.stop w).2 = w ∧
    (self.destroy w).2 = w := by
  cases force <;> cases demo_data <;>
    exact ⟨rfl, rfl, rfl, rfl, rfl, rfl, rfl, rfl⟩

/-- C4: the setup step list has exactly 9 steps in the fixed order: the
setup-status guard with expected=false first, then db init, file-location
creation, admin role creation, superuser-access grant, admin user creation
with the generated credential, role assignment, index init, and the flag
write to true last. -/
theorem setup_steps_order (self : ServicesCommands) (w : World) :
    ((self._setup w).1).length = 9 ∧
    ((self._setup w).1).head? =
      some (Step.FunctionStep (FuncRef.services_expected_status false)
        "Checking services are not setup...") ∧
    (∃ env msg, ((self._setup w).1).get? 1 =
      some (Step.CommandStep ["pipenv", "run", "invenio", "db", "init",
        "create"] env msg)) ∧
    (∃ env msg, ((self._setup w).1).get? 2 =
      some (Step.CommandStep ["pipenv", "run", "invenio", "files", "location",
        "create", "--default", "default-location",
        self.cli_config.instance_path ++ "/data"] env msg)) ∧
    (∃ env msg, ((self._setup w).1).get? 3 =
      some (Step.CommandStep ["pipenv", "run", "invenio", "roles", "create",
        "admin"] env msg)) ∧
    (∃ env msg, ((self._setup w).1).get? 4 =
      some (Step.CommandStep ["pipenv", "run", "invenio", "access", "allow",
        "superuser-access", "role", "admin"] env msg)) ∧
    (∃ env msg, ((self._setup w).1).get? 5 =
      some (Step.CommandStep ["pipenv", "run", "invenio", "users", "create",
        "--password", self.admin_password, self.admin_user] env msg)) ∧
    (∃ env msg, ((self._setup w).1).get? 6 =
      some (Step.CommandStep ["pipenv", "run", "invenio", "roles", "add",
        self.admin_user, "admin"] env msg)) ∧
    (∃ env msg, ((self._setup w).1).get? 7 =
      some (Step.CommandStep ["pipenv", "run", "invenio", "index", "init"]
        env msg)) ∧
    ((self._setup w).1).get? 8 =
      some (Step.FunctionStep (FuncRef.update_services_setup true)
        "Updating service setup status (True)...") ∧
    ((self._setup w).1).getLast? =
      some (Step.FunctionStep (FuncRef.update_services_setup true)
        "Updating service setup status (True)...") :=
  ⟨rfl, rfl, ⟨_, _, rfl⟩, ⟨_, _, rfl⟩, ⟨_, _, rfl⟩, ⟨_, _, rfl⟩, ⟨_, _, rfl⟩,
   ⟨_, _, rfl⟩, ⟨_, _, rfl⟩, rfl, rfl⟩

/-- C5: the cleanup step list has exactly 6 steps in the fixed order: the
setup-status guard with expected=true first, then cache flush, database
destruction, search-index destruction, queue purge, and the flag write to
false last. -/
theorem cleanup_steps_order (self : ServicesCommands) (w : World) :
    ((self._cleanup w).1).length = 6 ∧
    ((self._cleanup w).1).head? =
      some (Step.FunctionStep (FuncRef.services_expected_status true)
        "Checking services are setup...") ∧
    (∃ env msg, ((self._cleanup w).1).get? 1 =
      some (Step.CommandStep ["pipenv", "run", "invenio", "shell",
        "--no-term-title", "-c",
        "import redis; redis.StrictRedis.from_url(app.config[\x27CACHE_REDIS_URL\x27]).flushall(); print(\x27Cache cleared\x27)"]
        env msg)) ∧
    (∃ env msg, ((self._cleanup w).1).get? 2 =
      some (Step.CommandStep ["pipenv", "run", "invenio", "db", "destroy",
        "--yes-i-know"] env msg)) ∧
    (∃ env msg, ((self._cleanup w).1).get? 3 =
      some (Step.CommandStep ["pipenv", "run", "invenio", "index", "destroy",
        "--force", "--yes-i-know"] env msg)) ∧
    (∃ env msg, ((self._cleanup w).1).get? 4 =
      some (Step.CommandStep ["pipenv", "run", "invenio", "index", "queue",
        "init", "purge"] env msg)) ∧
    ((self._cleanup w).1).get? 5 =
      some (Step.FunctionStep (FuncRef.update_services_setup false)
        "Updating service setup status (False)...") ∧
    ((self._cleanup w).1).getLast? =
      some (Step.FunctionStep (FuncRef.update_services_setup false)
        "Updating service setup status (False)...") :=
  ⟨rfl, rfl, ⟨_, _, rfl⟩, ⟨_, _, rfl⟩, ⟨_, _, rfl⟩, ⟨_, _, rfl⟩, rfl, rfl⟩

/-- C10: the generated admin credential is a string of exactly 20 characters,
each drawn from ASCII letters, digits, or `"+,-_."`; the admin user name is
the configured author email, falling back to `"admin@" + project_site`
exactly when the author email is empty. -/
theorem init_admin_credentials (cfg : CLIConfig)
    (choice : Fin 20 → Fin alphabet.length) :
    ((ServicesCommands.init cfg choice).admin_password).length = 20 ∧
    (∀ c ∈ ((ServicesCommands.init cfg choice).admin_password).toList,
      c ∈ alphabet) ∧
    (cfg.author_email = "" →
      (ServicesCommands.init cfg choice).admin_user =
        "admin@" ++ cfg.project_site) ∧
    (cfg.author_email ≠ "" →
      (ServicesCommands.init cfg choice).admin_user = cfg.author_email) := by
  refine ⟨?_, ?_, ?_, ?_⟩
  · show ((List.finRange 20).map (fun i => alphabet.get (choice i))).length = 20
    simp
  · intro c hc
    have h : ((ServicesCommands.init cfg choice).admin_password).toList =
        (List.finRange 20).map (fun i => alphabet.get (choice i)) := rfl
    rw [h] at hc
    obtain ⟨i, _, hi⟩ := List.mem_map.mp hc
    exact hi ▸ alphabet.get_mem _ _
  · intro h
    simp [ServicesCommands.init, h]
  · intro h
    simp [ServicesCommands.init, h]

theorem init_admin_credentials_witness :
    ((ServicesCommands.init cfgEx choiceEx).admin_password).length = 20 ∧
    (ServicesCommands.init cfgEx choiceEx).admin_user =
      "admin@" ++ cfgEx.project_site :=
  ⟨(init_admin_credentials cfgEx choiceEx).1,
   (init_admin_credentials cfgEx choiceEx).2.2.1 rfl⟩

/-- C1: `status(services, verbose)` returns a list of the same length as
`services`, in input order; every entry is at most 2; an entry is 2 iff the
service has no registered health check; for a registered service the entry
is 0 iff the probe's status_code is 0, and 1 for every non-zero probe
status_code. -/
theorem status_spec (self : ServicesCommands)
    (reg : String → Option HealthCheck) (services : List String)
    (verbose : Bool) (w : World) :
    ((self.status reg services verbose w).1).length = services.length ∧
    ∀ i svc, services.get? i = some svc →
      ∃ c, ((self.status reg services verbose w).1).get? i = some c ∧
        c ≤ 2 ∧
        (c = 2 ↔ reg svc = none) ∧
        ∀ check, reg svc = some check →
          ((c = 0 ↔
            (check "docker-services.yml" verbose
              self.cli_config.project_shortname w).status_code = 0) ∧
           ((check "docker-services.yml" verbose
              self.cli_config.project_shortname w).status_code ≠ 0 → c = 1)) := by
  constructor
  · simp [ServicesCommands.status]
  · intro i svc hsvc
    have hm : ((self.status reg services verbose w).1).get? i =
        (services.get? i).map (fun service =>
          match reg service with
          | some check =>
              if (check "docker-services.yml" verbose
                  self.cli_config.project_shortname w).status_code = 0
              then 0 else 1
          | none => 2) := by
      simp [ServicesCommands.status, List.get?_map]
    rw [hsvc] at hm
    cases hreg : reg svc with
    | none =>
        refine ⟨2, ?_, by decide, by simp [hreg], ?_⟩
        · rw [hm]; simp [hreg]
        · intro check hc
          cases hc
    | some check =>
        by_cases h0 : (check "docker-services.yml" verbose
            self.cli_config.project_shortname w).status_code = 0
        · refine ⟨0, ?_, by decide, ?_, ?_⟩
          · rw [hm]; simp [hreg, h0]
          · constructor
            · intro h; cases h
            · intro h; cases h
          · intro ck hck
            injection hck with hck'
            subst hck'
            exact ⟨⟨fun _ => h0, fun _ => rfl⟩, fun hne => absurd h0 hne⟩
        · refine ⟨1, ?_, by decide, ?_, ?_⟩
          · rw [hm]; simp [hreg, h0]
          · constructor
            · intro h; cases h
            · intro h; cases h
          · intro ck hck
            injection hck with hck'
            subst hck'
            exact ⟨⟨fun h => absurd h (by decide), fun h => absurd h h0⟩,
              fun _ => rfl⟩

theorem status_spec_witness :
    ∃ c, ((selfEx.status regEx ["redis", "unknown"] false wEx).1).get? 1 =
        some c ∧
      c ≤ 2 ∧
      (c = 2 ↔ regEx "unknown" = none) ∧
      ∀ check, regEx "unknown" = some check →
        ((c = 0 ↔
          (check "docker-services.yml" false
            selfEx.cli_config.project_shortname wEx).status_code = 0) ∧
         ((check "docker-services.yml" false
            selfEx.cli_config.project_shortname wEx).status_code ≠ 0 →
          c = 1)) :=
  (status_spec selfEx regEx ["redis", "unknown"] false wEx).2 1 "unknown" rfl
